import Mathlib

/-!
DSKit, `DS-Bridging-Header.h`.

The repository's C source is one header.  It has no function bodies: it fixes
one constant, three plain-data structs, six function-pointer typedefs and
sixteen function prototypes.  The embedding below is the header's declarations
as data (one Lean definition per C declaration, under the C name), a value
model for the scalar and struct types it declares, and, for the contracts whose
deciding code is the host or the core and not the header, models written from
the specification (each marked as such).
-/

namespace DSKit

/-! ## C types and declarations -/

/-- The C types that occur in the header.  `const t` is the const-qualified
version of `t`, `ptr t` a pointer to `t`, `struct tag` the struct with that tag
and `named n` a typedef name. -/
inductive CType where
  | void
  | bool
  | char
  | unsigned
  | size_t
  | int16_t
  | float
  | double
  | struct (tag : String)
  | named (name : String)
  | const (t : CType)
  | ptr (t : CType)
  deriving DecidableEq, Repr

/-- A parameter of a prototype or of a function-pointer typedef; the name is
absent where the header gives none. -/
structure Param where
  name : Option String
  type : CType
  deriving DecidableEq, Repr

/-- A declaration `typedef ret (*name)(params);`. -/
structure Callback where
  name : String
  ret : CType
  params : List Param
  deriving DecidableEq, Repr

/-- A declaration `ret name(params);`.  A `(void)` parameter list is `[]`. -/
structure Prototype where
  name : String
  ret : CType
  params : List Param
  deriving DecidableEq, Repr

/-- A member of a struct declaration: a plain field, or a member whose type is
an anonymous struct of plain fields. -/
inductive Member where
  | field (name : String) (type : CType)
  | group (name : String) (fields : List (String × CType))
  deriving DecidableEq, Repr

/-- A declaration `typedef struct tag { members } tag;`. -/
structure StructDecl where
  tag : String
  members : List Member
  deriving DecidableEq, Repr

open CType

/-! ## The header, declaration by declaration -/

/-- Line 13: `#define RETRO_API_VERSION 1`. -/
def RETRO_API_VERSION : Nat := 1

/-- Lines 15-20. -/
def retro_game_info : StructDecl :=
  { tag := "retro_game_info"
    members :=
      [ .field "path" (ptr (const char)),
        .field "data" (ptr (const void)),
        .field "size" size_t,
        .field "meta" (ptr (const char)) ] }

/-- Lines 22-28. -/
def retro_system_info : StructDecl :=
  { tag := "retro_system_info"
    members :=
      [ .field "library_name" (ptr (const char)),
        .field "library_version" (ptr (const char)),
        .field "valid_extensions" (ptr (const char)),
        .field "need_fullpath" bool,
        .field "block_extract" bool ] }

/-- Lines 30-42. -/
def retro_system_av_info : StructDecl :=
  { tag := "retro_system_av_info"
    members :=
      [ .group "geometry"
          [ ("base_width", unsigned),
            ("base_height", unsigned),
            ("max_width", unsigned),
            ("max_height", unsigned),
            ("aspect_ratio", float) ],
        .group "timing"
          [ ("fps", double),
            ("sample_rate", double) ] ] }

/-- Line 44. -/
def retro_environment_t : Callback :=
  { name := "retro_environment_t"
    ret := bool
    params := [⟨some "cmd", unsigned⟩, ⟨some "data", ptr void⟩] }

/-- Lines 45-46. -/
def retro_video_refresh_t : Callback :=
  { name := "retro_video_refresh_t"
    ret := void
    params :=
      [ ⟨some "data", ptr (const void)⟩,
        ⟨some "width", unsigned⟩,
        ⟨some "height", unsigned⟩,
        ⟨some "pitch", size_t⟩ ] }

/-- Line 47. -/
def retro_audio_sample_t : Callback :=
  { name := "retro_audio_sample_t"
    ret := void
    params := [⟨some "left", int16_t⟩, ⟨some "right", int16_t⟩] }

/-- Lines 48-49. -/
def retro_audio_sample_batch_t : Callback :=
  { name := "retro_audio_sample_batch_t"
    ret := size_t
    params := [⟨some "data", ptr (const int16_t)⟩, ⟨some "frames", size_t⟩] }

/-- Line 50. -/
def retro_input_poll_t : Callback :=
  { name := "retro_input_poll_t"
    ret := void
    params := [] }

/-- Lines 51-52. -/
def retro_input_state_t : Callback :=
  { name := "retro_input_state_t"
    ret := int16_t
    params :=
      [ ⟨some "port", unsigned⟩,
        ⟨some "device", unsigned⟩,
        ⟨some "index", unsigned⟩,
        ⟨some "id", unsigned⟩ ] }

/-- Line 54. -/
def retro_init : Prototype :=
  { name := "retro_init", ret := void, params := [] }

/-- Line 55. -/
def retro_deinit : Prototype :=
  { name := "retro_deinit", ret := void, params := [] }

/-- Line 56. -/
def retro_api_version : Prototype :=
  { name := "retro_api_version", ret := unsigned, params := [] }

/-- Line 57. -/
def retro_get_system_info : Prototype :=
  { name := "retro_get_system_info"
    ret := void
    params := [⟨some "info", ptr (struct "retro_system_info")⟩] }

/-- Line 58. -/
def retro_get_system_av_info : Prototype :=
  { name := "retro_get_system_av_info"
    ret := void
    params := [⟨some "info", ptr (struct "retro_system_av_info")⟩] }

/-- Line 59. -/
def retro_set_environment : Prototype :=
  { name := "retro_set_environment"
    ret := void
    params := [⟨none, named "retro_environment_t"⟩] }

/-- Line 60. -/
def retro_set_video_refresh : Prototype :=
  { name := "retro_set_video_refresh"
    ret := void
    params := [⟨none, named "retro_video_refresh_t"⟩] }

/-- Line 61. -/
def retro_set_audio_sample : Prototype :=
  { name := "retro_set_audio_sample"
    ret := void
    params := [⟨none, named "retro_audio_sample_t"⟩] }

/-- Line 62. -/
def retro_set_audio_sample_batch : Prototype :=
  { name := "retro_set_audio_sample_batch"
    ret := void
    params := [⟨none, named "retro_audio_sample_batch_t"⟩] }

/-- Line 63. -/
def retro_set_input_poll : Prototype :=
  { name := "retro_set_input_poll"
    ret := void
    params := [⟨none, named "retro_input_poll_t"⟩] }

/-- Line 64. -/
def retro_set_input_state : Prototype :=
  { name := "retro_set_input_state"
    ret := void
    params := [⟨none, named "retro_input_state_t"⟩] }

/-- Line 65. -/
def retro_set_controller_port_device : Prototype :=
  { name := "retro_set_controller_port_device"
    ret := void
    params := [⟨some "port", unsigned⟩, ⟨some "device", unsigned⟩] }

/-- Line 66. -/
def retro_reset : Prototype :=
  { name := "retro_reset", ret := void, params := [] }

/-- Line 67. -/
def retro_run : Prototype :=
  { name := "retro_run", ret := void, params := [] }

/-- Line 68. -/
def retro_load_game : Prototype :=
  { name := "retro_load_game"
    ret := bool
    params := [⟨some "game", ptr (const (struct "retro_game_info"))⟩] }

/-- Line 69. -/
def retro_unload_game : Prototype :=
  { name := "retro_unload_game", ret := void, params := [] }

/-- Everything the header declares, in source order within each kind.  A
`#define` without a body (the include guard) has value `none`. -/
structure Header where
  defines : List (String × Option Nat)
  structs : List StructDecl
  callbacks : List Callback
  entryPoints : List Prototype
  deriving Repr

/-- The header: lines 1-75. -/
def header : Header :=
  { defines := [("libretro_ds_h", none), ("RETRO_API_VERSION", some RETRO_API_VERSION)]
    structs := [retro_game_info, retro_system_info, retro_system_av_info]
    callbacks :=
      [ retro_environment_t,
        retro_video_refresh_t,
        retro_audio_sample_t,
        retro_audio_sample_batch_t,
        retro_input_poll_t,
        retro_input_state_t ]
    entryPoints :=
      [ retro_init,
        retro_deinit,
        retro_api_version,
        retro_get_system_info,
        retro_get_system_av_info,
        retro_set_environment,
        retro_set_video_refresh,
        retro_set_audio_sample,
        retro_set_audio_sample_batch,
        retro_set_input_poll,
        retro_set_input_state,
        retro_set_controller_port_device,
        retro_reset,
        retro_run,
        retro_load_game,
        retro_unload_game ] }

/-! ## Queries over the declarations -/

/-- The value the preprocessor substitutes for an object-like `#define`. -/
def Header.defineValue (h : Header) (name : String) : Option Nat :=
  (h.defines.lookup name).join

/-- The prototype declared under `name`. -/
def Header.entryPoint (h : Header) (name : String) : Option Prototype :=
  h.entryPoints.find? (fun p => p.name == name)

/-- The function-pointer typedef declared under `name`. -/
def Header.callback (h : Header) (name : String) : Option Callback :=
  h.callbacks.find? (fun c => c.name == name)

/-- The parameter types of the prototype declared under `name`. -/
def Header.paramTypes (h : Header) (name : String) : Option (List CType) :=
  (h.entryPoint name).map (fun p => p.params.map Param.type)

/-- The function type a typedef names: result and parameter types.  Parameter
names and the typedef's own name are not part of a C function type. -/
def Callback.fnType (c : Callback) : CType × List CType :=
  (c.ret, c.params.map Param.type)

/-- The name of a struct member. -/
def Member.name : Member → String
  | .field n _ => n
  | .group n _ => n

/-- The type of the plain field `name` of a struct, if it has one. -/
def StructDecl.fieldType (d : StructDecl) (name : String) : Option CType :=
  d.members.findSome? fun m =>
    match m with
    | .field n t => if n == name then some t else none
    | .group _ _ => none

/-- The type of the field `name` of the anonymous-struct member `group`. -/
def StructDecl.groupFieldType (d : StructDecl) (group name : String) : Option CType :=
  d.members.findSome? fun m =>
    match m with
    | .field _ _ => none
    | .group g fs => if g == group then fs.lookup name else none

/-- Pointer type: a pointer to an object type, or a typedef name the header
declares, each of which names a pointer to function. -/
def CType.isPointer : CType → Bool
  | ptr _ => true
  | named n => (header.callback n).isSome
  | _ => false

/-- Pointer to `void`, const-qualified or not: a pointer that says nothing
about what it points to. -/
def CType.isVoidPointer : CType → Bool
  | ptr void => true
  | ptr (const void) => true
  | _ => false

/-- Pointer through which the callee may only read: the pointee is const. -/
def CType.isReadOnlyPointer : CType → Bool
  | ptr (const _) => true
  | _ => false

/-- Integer type (of those in the header). -/
def CType.isInteger : CType → Bool
  | unsigned => true
  | size_t => true
  | int16_t => true
  | char => true
  | bool => true
  | _ => false

/-- The parameters of a typedef that are pointers. -/
def Callback.pointerParams (c : Callback) : List Param :=
  c.params.filter (fun p => p.type.isPointer)

/-! ## Values of the declared types -/

/-- What the header leaves to the implementation: the widths of `unsigned` and
`size_t` and the signedness of plain `char`. -/
structure Target where
  uintBits : Nat
  sizeBits : Nat
  charSigned : Bool
  deriving Repr

/-- A scalar value: an integer, a floating value as its bit pattern (floating
arithmetic is not modelled), the null pointer, or a non-null pointer. -/
inductive Scalar where
  | int (z : Int)
  | flt (bits : Nat)
  | null
  | addr (a : Nat)
  deriving DecidableEq, Repr

/-- Whether a scalar is a value of a type.  `int16_t` is exact-width two's
complement (`<stdint.h>`), `bool` is 0 or 1, a pointer is null or not, and a
typedef name is a value type only if the header declares it, where it names a
pointer to function.  `void` and the struct types have no scalar values. -/
def hasType (T : Target) : CType → Scalar → Bool
  | .bool, .int z => decide (z = 0 ∨ z = 1)
  | .char, .int z =>
      if T.charSigned then decide (-128 ≤ z ∧ z ≤ 127) else decide (0 ≤ z ∧ z ≤ 255)
  | .unsigned, .int z => decide (0 ≤ z ∧ z < 2 ^ T.uintBits)
  | .size_t, .int z => decide (0 ≤ z ∧ z < 2 ^ T.sizeBits)
  | .int16_t, .int z => decide (-32768 ≤ z ∧ z ≤ 32767)
  | .float, .flt b => decide (b < 2 ^ 32)
  | .double, .flt b => decide (b < 2 ^ 64)
  | .const t, v => hasType T t v
  | .ptr _, .null => true
  | .ptr _, .addr _ => true
  | .named n, .null => (header.callback n).isSome
  | .named n, .addr _ => (header.callback n).isSome
  | _, _ => false

/-- The value of one struct member. -/
inductive MemberValue where
  | field (v : Scalar)
  | group (vs : List Scalar)
  deriving DecidableEq, Repr

/-- The values of an anonymous struct's fields against their declarations. -/
def fieldsOk (T : Target) : List (String × CType) → List Scalar → Bool
  | [], [] => true
  | (_, t) :: fs, v :: vs => hasType T t v && fieldsOk T fs vs
  | _, _ => false

/-- One member's value against its declaration. -/
def memberOk (T : Target) : Member → MemberValue → Bool
  | .field _ t, .field v => hasType T t v
  | .group _ fs, .group vs => fieldsOk T fs vs
  | _, _ => false

/-- The members' values against the members' declarations, in order. -/
def membersOk (T : Target) : List Member → List MemberValue → Bool
  | [], [] => true
  | m :: ms, v :: vs => memberOk T m v && membersOk T ms vs
  | _, _ => false

/-- A well-formed value of a declared struct: one value per member, in
declaration order, each of the member's type. -/
def StructDecl.wellFormed (T : Target) (d : StructDecl) (vs : List MemberValue) : Bool :=
  membersOk T d.members vs

/-- A result against a declared result type: nothing for `void`, else a value
of the type. -/
def retOk (T : Target) : CType → Option Scalar → Bool
  | .void, none => true
  | .void, some _ => false
  | _, none => false
  | t, some v => hasType T t v

/-! ## The host's audio sink (from the specification) -/

/-- One stereo frame: a left and a right sample. -/
abbrev StereoFrame := Int × Int

/-- Modelled from the spec: the state behind the host's `audio_sample_batch`
handler, whose body is not in the header.  Section 4.4 speaks of a buffered
host that may be unable to take all the frames offered (backpressure); the
model is a queue of frames with a capacity. -/
structure AudioSink where
  capacity : Nat
  queued : List StereoFrame
  deriving Repr

/-- Frames the sink can still take. -/
def AudioSink.room (s : AudioSink) : Nat :=
  s.capacity - s.queued.length

/-- Modelled from the spec: the host's handler of type
`retro_audio_sample_batch_t`, whose body is not in the header.  Section 4.4:
the call delivers `frames` frames, and the host consumes all of them or reports
fewer only when it is unable to take them.  The result is the sink afterwards
and the number of frames consumed. -/
def audio_sample_batch (s : AudioSink) (data : List StereoFrame) (frames : Nat) :
    AudioSink × Nat :=
  let offered := data.take frames
  let consumed := if offered.length ≤ s.room then offered.length else s.room
  ({ s with queued := s.queued ++ offered.take consumed }, consumed)

/-! ## The host's input snapshot (from the specification) -/

/-- The tuple that identifies one logical input: port, device type, index and
id, the four parameters of `retro_input_state_t`. -/
abbrev InputKey := Nat × Nat × Nat × Nat

/-- Modelled from the spec: the per-step snapshot of section 4.5, which the
host's `input_poll` handler captures and its `input_state` handler reads;
neither handler's body is in the header.  The snapshot holds the value captured
for each logical input the host has. -/
structure InputSnapshot where
  entries : List (InputKey × Int)
  deriving Repr

/-- A number as an `int16_t` result holds it: the conversion to the declared
result type of `retro_input_state_t` (lines 51-52), two's complement. -/
def toInt16 (z : Int) : Int :=
  (z + 32768) % 65536 - 32768

/-- Modelled from the spec: the host's handler of type `retro_input_poll_t`,
whose body is not in the header.  Section 4.5: it captures the current state of
the input devices into the snapshot of the step, in place of the previous
one. -/
def input_poll (_previous : InputSnapshot) (devices : List (InputKey × Int)) :
    InputSnapshot :=
  { entries := devices }

/-- Modelled from the spec: the host's handler of type `retro_input_state_t`,
whose body is not in the header.  Section 4.5: a lookup of the input the tuple
identifies in the last captured snapshot; a port, device, index or id the
snapshot does not hold reads as the neutral value zero. -/
def input_state (s : InputSnapshot) (port device index id : Nat) : Int :=
  match s.entries.lookup (port, device, index, id) with
  | some v => toInt16 v
  | none => 0

/-! ## The core's AV-timing report (from the specification) -/

/-- A value of the anonymous struct behind `geometry` (lines 31-37); the
floating member is its bit pattern. -/
structure Geometry where
  base_width : Nat
  base_height : Nat
  max_width : Nat
  max_height : Nat
  aspect_ratio : Nat
  deriving Repr

/-- A value of the anonymous struct behind `timing` (lines 38-41), as bit
patterns. -/
structure Timing where
  fps : Nat
  sample_rate : Nat
  deriving Repr

/-- A value of `struct retro_system_av_info` (lines 30-42), the spec's
AV-timing descriptor. -/
structure AVTimingDescriptor where
  geometry : Geometry
  timing : Timing
  deriving Repr

/-- The descriptor as a value of the declared struct. -/
def AVTimingDescriptor.toValue (d : AVTimingDescriptor) : List MemberValue :=
  [ .group
      [ .int d.geometry.base_width,
        .int d.geometry.base_height,
        .int d.geometry.max_width,
        .int d.geometry.max_height,
        .flt d.geometry.aspect_ratio ],
    .group [.flt d.timing.fps, .flt d.timing.sample_rate] ]

/-- A number as an `unsigned` holds it. -/
def Target.toUnsigned (T : Target) (n : Nat) : Nat :=
  n % 2 ^ T.uintBits

/-- The pixel dimensions of one video frame. -/
structure FrameSize where
  width : Nat
  height : Nat
  deriving Repr

/-- Modelled from the spec: what the core holds about the loaded content that
`retro_get_system_av_info` reports; the core is not in the header.  Section 3
and the glossary: the dimensions depend on the loaded content, base is the
typical frame size and max the upper bound the host sizes its buffers by.  The
model is the typical frame size, the other frame sizes the content can make the
core deliver, and the aspect ratio and rates as bit patterns. -/
structure LoadedContent where
  typical : FrameSize
  others : List FrameSize
  aspect_ratio : Nat
  fps : Nat
  sample_rate : Nat
  deriving Repr

/-- Modelled from the spec: the core as far as `retro_get_system_av_info`
reads it: the content loaded, if any. -/
structure Core where
  content : Option LoadedContent
  deriving Repr

/-- The least bound of `base` and every element of `xs`. -/
def upperBound (base : Nat) (xs : List Nat) : Nat :=
  xs.foldl max base

/-- Modelled from the spec: the body of `retro_get_system_av_info`, which is in
the core and not in the header.  Section 4.2: valid only once a game is loaded;
it returns the descriptor the host allocates its output buffers from.  Base is
the content's typical frame size, max the upper bound over every frame size the
content can produce (glossary, Geometry), each held in an `unsigned`. -/
def get_system_av_info (T : Target) (core : Core) : Option AVTimingDescriptor :=
  core.content.map fun c =>
    let w := T.toUnsigned c.typical.width
    let h := T.toUnsigned c.typical.height
    { geometry :=
        { base_width := w
          base_height := h
          max_width := upperBound w (c.others.map fun s => T.toUnsigned s.width)
          max_height := upperBound h (c.others.map fun s => T.toUnsigned s.height)
          aspect_ratio := c.aspect_ratio % 2 ^ 32 }
      timing :=
        { fps := c.fps % 2 ^ 64
          sample_rate := c.sample_rate % 2 ^ 64 } }

/-! ## The host's lifecycle state machine (from the specification) -/

/-- Modelled from the spec: the lifecycle states of section 4.2.  The header
declares no state; the host wrapper that keeps it is not in the header. -/
inductive Phase where
  | Unloaded
  | Initialized
  | Configured
  | GameLoaded
  | Running
  | Paused
  | Deinitialized
  deriving DecidableEq, Repr

/-- The six callbacks of the registry, one per typedef of the header. -/
inductive CallbackKind where
  | environment
  | video_refresh
  | audio_sample
  | audio_sample_batch
  | input_poll
  | input_state
  deriving DecidableEq, Repr

/-- All six kinds, in the header's order. -/
def CallbackKind.all : List CallbackKind :=
  [ .environment, .video_refresh, .audio_sample, .audio_sample_batch, .input_poll,
    .input_state ]

/-- A call of one of the sixteen entry points.  `retro_load_game` carries the
boolean the core answers with when the call reaches it. -/
inductive Call where
  | retro_init
  | retro_deinit
  | retro_api_version
  | retro_get_system_info
  | retro_get_system_av_info
  | retro_set_environment
  | retro_set_video_refresh
  | retro_set_audio_sample
  | retro_set_audio_sample_batch
  | retro_set_input_poll
  | retro_set_input_state
  | retro_set_controller_port_device (port device : Nat)
  | retro_reset
  | retro_run
  | retro_load_game (result : Bool)
  | retro_unload_game
  deriving DecidableEq, Repr

/-- The entry point a call names. -/
def Call.name : Call → String
  | .retro_init => "retro_init"
  | .retro_deinit => "retro_deinit"
  | .retro_api_version => "retro_api_version"
  | .retro_get_system_info => "retro_get_system_info"
  | .retro_get_system_av_info => "retro_get_system_av_info"
  | .retro_set_environment => "retro_set_environment"
  | .retro_set_video_refresh => "retro_set_video_refresh"
  | .retro_set_audio_sample => "retro_set_audio_sample"
  | .retro_set_audio_sample_batch => "retro_set_audio_sample_batch"
  | .retro_set_input_poll => "retro_set_input_poll"
  | .retro_set_input_state => "retro_set_input_state"
  | .retro_set_controller_port_device _ _ => "retro_set_controller_port_device"
  | .retro_reset => "retro_reset"
  | .retro_run => "retro_run"
  | .retro_load_game _ => "retro_load_game"
  | .retro_unload_game => "retro_unload_game"

/-- Modelled from the spec: the host wrapper's state, which is not in the
header: the lifecycle phase, the callbacks registered so far (section 3,
CallbackRegistry), the controller port bindings (ControllerPortBinding) and
whether the core has run since it was initialised. -/
structure Host where
  phase : Phase
  registered : List CallbackKind
  bindings : List (Nat × Nat)
  ran : Bool
  deriving DecidableEq, Repr

/-- The wrapper before any call. -/
def Host.start : Host :=
  { phase := .Unloaded, registered := [], bindings := [], ran := false }

/-- Every callback of the registry is registered. -/
def Host.complete (registered : List CallbackKind) : Bool :=
  CallbackKind.all.all fun k => decide (k ∈ registered)

/-- Modelled from the spec: a callback registration.  Section 4.2: valid in
Initialized or later, before the first run; the environment callback may also
be registered before init, since a core may query the environment from inside
init.  Section 3: the environment callback is registered before any other.
The registration that completes the registry takes Initialized to
Configured. -/
def Host.register (h : Host) (k : CallbackKind) : Option Host :=
  if h.ran = false ∧
      ((k = .environment ∧ h.phase = .Unloaded) ∨
        ((h.phase = .Initialized ∨ h.phase = .Configured ∨ h.phase = .GameLoaded) ∧
          (k = .environment ∨ .environment ∈ h.registered))) then
    let registered := if k ∈ h.registered then h.registered else k :: h.registered
    some
      { h with
        registered := registered
        phase :=
          if h.phase = .Initialized ∧ Host.complete registered = true then .Configured
          else h.phase }
  else none

/-- Modelled from the spec: the wrapper's guard and transition for one call,
after the transition list of section 4.2.  `none` is a call rejected before it
reaches the core; `some` is the state after a call that was let through. -/
def Host.step (h : Host) : Call → Option Host
  | .retro_init =>
      if h.phase = .Unloaded ∨ h.phase = .Deinitialized then
        some { h with phase := .Initialized }
      else none
  | .retro_deinit =>
      if h.phase = .Deinitialized then none
      else
        some { phase := .Deinitialized, registered := [], bindings := [], ran := false }
  | .retro_api_version => if h.phase = .Deinitialized then none else some h
  | .retro_get_system_info => if h.phase = .Deinitialized then none else some h
  | .retro_get_system_av_info => if h.phase = .GameLoaded then some h else none
  | .retro_set_environment => h.register .environment
  | .retro_set_video_refresh => h.register .video_refresh
  | .retro_set_audio_sample => h.register .audio_sample
  | .retro_set_audio_sample_batch => h.register .audio_sample_batch
  | .retro_set_input_poll => h.register .input_poll
  | .retro_set_input_state => h.register .input_state
  | .retro_set_controller_port_device port device =>
      if h.phase = .Unloaded ∨ h.phase = .Deinitialized then none
      else some { h with bindings := (port, device) :: h.bindings }
  | .retro_reset =>
      if h.phase = .Running ∨ h.phase = .Paused then some { h with phase := .Running }
      else none
  | .retro_run =>
      if h.phase = .GameLoaded ∨ h.phase = .Running then
        some { h with phase := .Running, ran := true }
      else none
  | .retro_load_game result =>
      if h.phase = .Configured then
        some { h with phase := if result then .GameLoaded else .Configured }
      else none
  | .retro_unload_game =>
      if h.phase = .GameLoaded ∨ h.phase = .Running then some { h with phase := .Configured }
      else none

/-- Whether the wrapper lets a call through to the core. -/
def Host.accepts (h : Host) (c : Call) : Bool :=
  (h.step c).isSome

/-- The wrapper after one call: a rejected call leaves the state as it was. -/
def Host.call (h : Host) (c : Call) : Host :=
  (h.step c).getD h

/-- The wrapper after a sequence of calls. -/
def Host.after (h : Host) (calls : List Call) : Host :=
  calls.foldl Host.call h

/-- A game is loaded: the phases a successful load leads to and `run` keeps. -/
def Host.loaded (h : Host) : Bool :=
  decide (h.phase = .GameLoaded ∨ h.phase = .Running)

/-! ## The header's declarations -/

/-- C1: the API version constant the header exports, RETRO_API_VERSION, is 1
(also as the preprocessor sees it), so comparing a version against the
constant is comparing it against 1; retro_api_version, whose result the host
compares, takes no argument and returns an unsigned. -/
theorem api_version_constant_is_one :
    RETRO_API_VERSION = 1 ∧
    header.defineValue "RETRO_API_VERSION" = some 1 ∧
    (∀ v : Nat, v = RETRO_API_VERSION ↔ v = 1) ∧
    header.entryPoint "retro_api_version" =
      some { name := "retro_api_version", ret := unsigned, params := [] } := by
  refine ⟨rfl, by decide, fun v => by simp [RETRO_API_VERSION], by decide⟩

/-- C2: the header declares exactly the sixteen entry points of the spec's
list, each once, with the listed parameters. -/
theorem entry_points_exactly_sixteen :
    header.entryPoints.length = 16 ∧
    header.entryPoints.map Prototype.name =
      [ "retro_init", "retro_deinit", "retro_api_version", "retro_get_system_info",
        "retro_get_system_av_info", "retro_set_environment", "retro_set_video_refresh",
        "retro_set_audio_sample", "retro_set_audio_sample_batch", "retro_set_input_poll",
        "retro_set_input_state", "retro_set_controller_port_device", "retro_reset",
        "retro_run", "retro_load_game", "retro_unload_game" ] ∧
    (header.entryPoints.map Prototype.name).Nodup ∧
    (∀ n ∈ ["retro_init", "retro_deinit", "retro_api_version", "retro_reset", "retro_run",
        "retro_unload_game"], header.paramTypes n = some []) ∧
    header.paramTypes "retro_get_system_info" = some [ptr (struct retro_system_info.tag)] ∧
    header.paramTypes "retro_get_system_av_info" =
      some [ptr (struct retro_system_av_info.tag)] ∧
    (∀ k ∈ ["environment", "video_refresh", "audio_sample", "audio_sample_batch",
        "input_poll", "input_state"],
      header.paramTypes ("retro_set_" ++ k) = some [named ("retro_" ++ k ++ "_t")] ∧
      (header.callback ("retro_" ++ k ++ "_t")).isSome = true) ∧
    (header.entryPoint "retro_set_controller_port_device").map Prototype.params =
      some [⟨some "port", unsigned⟩, ⟨some "device", unsigned⟩] ∧
    header.paramTypes "retro_load_game" = some [ptr (const (struct retro_game_info.tag))] := by
  decide

/-- C3: of the sixteen entry points retro_load_game is the only one whose
result is a boolean, retro_api_version the only other one with a result (an
unsigned), and the remaining fourteen return nothing. -/
theorem only_load_game_reports_failure :
    header.entryPoints.length = 16 ∧
    (header.entryPoints.filter fun (e : Prototype) => e.ret = CType.bool).map Prototype.name =
      ["retro_load_game"] ∧
    (header.entryPoints.filter fun (e : Prototype) => e.ret ≠ CType.void).map
        (fun e => (e.name, e.ret)) =
      [("retro_api_version", CType.unsigned), ("retro_load_game", CType.bool)] ∧
    (header.entryPoints.filter fun (e : Prototype) => e.ret = CType.void).map Prototype.name =
      [ "retro_init", "retro_deinit", "retro_get_system_info", "retro_get_system_av_info",
        "retro_set_environment", "retro_set_video_refresh", "retro_set_audio_sample",
        "retro_set_audio_sample_batch", "retro_set_input_poll", "retro_set_input_state",
        "retro_set_controller_port_device", "retro_reset", "retro_run",
        "retro_unload_game" ] ∧
    (∀ (T : Target) (e : Prototype), e ∈ header.entryPoints → e.ret = CType.void →
      ∀ r, retOk T e.ret r = true ↔ r = none) := by
  refine ⟨by decide, by decide, by decide, by decide, ?_⟩
  intro T e _ hvoid r
  rw [hvoid]
  cases r <;> simp [retOk]

/-- C4: the callback registry is exactly six function-pointer types with the
signatures of the spec, and no two of them are the same function type. -/
theorem callback_registry_signatures :
    header.callbacks.map Callback.name =
      [ "retro_environment_t", "retro_video_refresh_t", "retro_audio_sample_t",
        "retro_audio_sample_batch_t", "retro_input_poll_t", "retro_input_state_t" ] ∧
    (header.callback "retro_environment_t").map Callback.fnType =
      some (CType.bool, [unsigned, ptr void]) ∧
    (header.callback "retro_environment_t").map (fun c => c.params.map Param.name) =
      some [some "cmd", some "data"] ∧
    (header.callback "retro_video_refresh_t").map Callback.fnType =
      some (void, [ptr (const void), unsigned, unsigned, size_t]) ∧
    (header.callback "retro_video_refresh_t").map (fun c => c.params.map Param.name) =
      some [some "data", some "width", some "height", some "pitch"] ∧
    (header.callback "retro_audio_sample_t").map Callback.fnType =
      some (void, [int16_t, int16_t]) ∧
    (header.callback "retro_audio_sample_t").map (fun c => c.params.map Param.name) =
      some [some "left", some "right"] ∧
    (header.callback "retro_audio_sample_batch_t").map Callback.fnType =
      some (size_t, [ptr (const int16_t), size_t]) ∧
    (header.callback "retro_audio_sample_batch_t").map (fun c => c.params.map Param.name) =
      some [some "data", some "frames"] ∧
    (header.callback "retro_input_poll_t").map Callback.fnType = some (void, []) ∧
    (header.callback "retro_input_state_t").map Callback.fnType =
      some (int16_t, [unsigned, unsigned, unsigned, unsigned]) ∧
    (header.callback "retro_input_state_t").map (fun c => c.params.map Param.name) =
      some [some "port", some "device", some "index", some "id"] ∧
    (header.callbacks.map Callback.fnType).Nodup := by
  decide

theorem toInt16_range (z : Int) : -32768 ≤ toInt16 z ∧ toInt16 z ≤ 32767 := by
  unfold toInt16
  omega

theorem toInt16_of_range (z : Int) (hlo : -32768 ≤ z) (hhi : z ≤ 32767) : toInt16 z = z := by
  unfold toInt16
  omega

/-- C5: an input_state query is a lookup that never fails: for every snapshot
and every tuple (port, device, index, id), held by the snapshot or not, the
host's handler returns an integer between -32768 and 32767, a value of the
declared result type int16_t.  A tuple the snapshot does not hold reads as 0,
and one it holds reads as the captured value when that is a 16-bit value.  The
declared result type is exactly the integers of that range: the null pointer
and the absent result are not values of it, so it has no value set aside for
failure. -/
theorem input_state_result_is_int16 (T : Target) (s : InputSnapshot)
    (port device index id : Nat) :
    -32768 ≤ input_state s port device index id ∧
    input_state s port device index id ≤ 32767 ∧
    hasType T retro_input_state_t.ret (.int (input_state s port device index id)) = true ∧
    (s.entries.lookup (port, device, index, id) = none →
      input_state s port device index id = 0) ∧
    (∀ v : Int, s.entries.lookup (port, device, index, id) = some v →
      -32768 ≤ v → v ≤ 32767 → input_state s port device index id = v) ∧
    retro_input_state_t.ret = int16_t ∧
    (∀ z : Int,
      hasType T retro_input_state_t.ret (.int z) = true ↔ -32768 ≤ z ∧ z ≤ 32767) ∧
    hasType T retro_input_state_t.ret .null = false ∧
    retOk T retro_input_state_t.ret none = false := by
  have hrange : -32768 ≤ input_state s port device index id ∧
      input_state s port device index id ≤ 32767 := by
    unfold input_state
    cases s.entries.lookup (port, device, index, id) with
    | none => constructor <;> norm_num
    | some v => exact toInt16_range v
  refine ⟨hrange.1, hrange.2, ?_, ?_, ?_, rfl, ?_, rfl, rfl⟩
  · simpa [retro_input_state_t, hasType] using hrange
  · intro hnone
    simp [input_state, hnone]
  · intro v hsome hlo hhi
    simp [input_state, hsome, toInt16_of_range v hlo hhi]
  · intro z
    simp [retro_input_state_t, hasType]

/-- C6: the game descriptor has exactly four members, in the order path, data,
size, meta: path and meta are pointers to read-only text, data a pointer to a
read-only buffer of no stated element type, size a size_t; each pointer may be
null, and the descriptor with null path, null data, size 0 (and null meta) is a
well-formed value of the struct on every target. -/
theorem game_descriptor_shape (T : Target) :
    retro_game_info.members.length = 4 ∧
    retro_game_info.members.map Member.name = ["path", "data", "size", "meta"] ∧
    retro_game_info.fieldType "path" = some (ptr (const char)) ∧
    retro_game_info.fieldType "data" = some (ptr (const void)) ∧
    retro_game_info.fieldType "size" = some size_t ∧
    retro_game_info.fieldType "meta" = some (ptr (const char)) ∧
    (∀ n ∈ ["path", "data", "meta"], ∀ t, retro_game_info.fieldType n = some t →
      t.isReadOnlyPointer = true ∧ hasType T t .null = true) ∧
    retro_game_info.wellFormed T
      [.field .null, .field .null, .field (.int 0), .field .null] = true := by
  refine ⟨by decide, by decide, by decide, by decide, by decide, by decide, ?_, ?_⟩
  · intro n hn t ht
    simp only [List.mem_cons, List.mem_singleton, List.not_mem_nil, or_false] at hn
    rcases hn with rfl | rfl | rfl
    · have : t = ptr (const char) := by
        have h : retro_game_info.fieldType "path" = some (ptr (const char)) := by decide
        rw [h] at ht; exact (Option.some.inj ht).symm
      subst this; simp [CType.isReadOnlyPointer, hasType]
    · have : t = ptr (const void) := by
        have h : retro_game_info.fieldType "data" = some (ptr (const void)) := by decide
        rw [h] at ht; exact (Option.some.inj ht).symm
      subst this; simp [CType.isReadOnlyPointer, hasType]
    · have : t = ptr (const char) := by
        have h : retro_game_info.fieldType "meta" = some (ptr (const char)) := by decide
        rw [h] at ht; exact (Option.some.inj ht).symm
      subst this; simp [CType.isReadOnlyPointer, hasType]
  · simp [StructDecl.wellFormed, retro_game_info, membersOk, memberOk, hasType]

/-- C10, as stated, fails at video_refresh: only the environment callback
was to have an untyped pointer parameter, yet the first parameter of
retro_video_refresh_t (line 45, `const void *data`) is a pointer to void too. -/
theorem video_refresh_data_is_untyped_pointer :
    retro_video_refresh_t ∈ header.callbacks ∧
    retro_video_refresh_t.name ≠ retro_environment_t.name ∧
    (⟨some "data", ptr (const void)⟩ : Param) ∈ retro_video_refresh_t.params ∧
    (ptr (const void)).isVoidPointer = true ∧
    ¬ (∀ c ∈ header.callbacks, (c.params.any fun p => p.type.isVoidPointer) = true →
        c.name = retro_environment_t.name) := by
  decide

/-- C10, amended: no entry point and no callback type carries a core handle
or a host-context argument.  Every parameter of the sixteen entry points is a
pointer to one of the header's three descriptor structs, one of the six
callback types, or the port and device numbers of
retro_set_controller_port_device, and none is a pointer to void.  Of the six
callback types only the environment callback has a writable untyped pointer
parameter (`void *data`, its payload); the pointer parameters of the other five
are the read-only frame data of video_refresh (`const void *data`, untyped as
well) and the read-only sample data of audio_sample_batch
(`const int16_t *data`), and nothing else. -/
theorem no_handle_or_context_parameter :
    (∀ e ∈ header.entryPoints, ∀ p ∈ e.params,
      p.type.isVoidPointer = false ∧
      ((∃ s ∈ header.structs,
          p.type = ptr (struct s.tag) ∨ p.type = ptr (const (struct s.tag))) ∨
        (∃ c ∈ header.callbacks, p.type = named c.name) ∨
        (e.name = "retro_set_controller_port_device" ∧ p.type = unsigned ∧
          (p.name = some "port" ∨ p.name = some "device")))) ∧
    (header.callbacks.filter fun c => c.params.any fun p => p.type = ptr void).map
      Callback.name = ["retro_environment_t"] ∧
    retro_environment_t.pointerParams = [⟨some "data", ptr void⟩] ∧
    (header.callbacks.filter fun c =>
        c.name != "retro_environment_t" && !c.pointerParams.isEmpty).map
      (fun c => (c.name, c.pointerParams)) =
      [ ("retro_video_refresh_t", [⟨some "data", ptr (const void)⟩]),
        ("retro_audio_sample_batch_t", [⟨some "data", ptr (const int16_t)⟩]) ] ∧
    (∀ c ∈ header.callbacks, c.name ≠ "retro_environment_t" →
      ∀ p ∈ c.pointerParams, p.type.isReadOnlyPointer = true) := by
  decide

/-! ## The audio sink -/

/-- C7: a call of the host's audio_sample_batch handler that offers N frames
returns the number M of frames it consumed, and M ≤ N; the sink's queue grows
by exactly the first M frames offered. -/
theorem audio_batch_consumes_at_most_offered (s : AudioSink) (data : List StereoFrame)
    (frames : Nat) :
    (audio_sample_batch s data frames).2 ≤ frames ∧
    (audio_sample_batch s data frames).1.queued =
      s.queued ++ (data.take frames).take (audio_sample_batch s data frames).2 ∧
    (audio_sample_batch s data frames).1.queued.length =
      s.queued.length + (audio_sample_batch s data frames).2 := by
  have hlen : (data.take frames).length ≤ frames := by
    rw [List.length_take]; exact Nat.min_le_left _ _
  refine ⟨?_, rfl, ?_⟩
  · simp only [audio_sample_batch]
    split_ifs with h
    · exact hlen
    · push_neg at h; exact le_trans (le_of_lt h) hlen
  · simp only [audio_sample_batch, List.length_append, List.length_take]
    split_ifs with h
    · simp
    · push_neg at h
      simp only [Nat.add_left_cancel_iff]
      exact Nat.min_eq_left (le_of_lt h)

/-! ## The AV-timing report -/

theorem le_upperBound (base : Nat) (xs : List Nat) : base ≤ upperBound base xs := by
  unfold upperBound
  induction xs generalizing base with
  | nil => exact le_refl _
  | cons x xs ih => exact le_trans (le_max_left base x) (ih (max base x))

theorem upperBound_lt (bound base : Nat) (xs : List Nat) (hbase : base < bound)
    (hxs : ∀ x ∈ xs, x < bound) : upperBound base xs < bound := by
  unfold upperBound
  induction xs generalizing base with
  | nil => exact hbase
  | cons x xs ih =>
    refine ih (max base x) (max_lt hbase (hxs x (List.mem_cons_self _ _))) ?_
    intro y hy
    exact hxs y (List.mem_cons_of_mem _ hy)

theorem toUnsigned_lt (T : Target) (n : Nat) : T.toUnsigned n < 2 ^ T.uintBits :=
  Nat.mod_lt _ (by positivity)

/-- C8: once a game is loaded, retro_get_system_av_info produces a descriptor,
and in every descriptor it produces base_width ≤ max_width and
base_height ≤ max_height; the descriptor is a well-formed value of
struct retro_system_av_info.  Before a game is loaded it produces none. -/
theorem av_info_geometry_invariant (T : Target) (c : LoadedContent) :
    (∃ d, get_system_av_info T { content := some c } = some d ∧
      d.geometry.base_width ≤ d.geometry.max_width ∧
      d.geometry.base_height ≤ d.geometry.max_height ∧
      retro_system_av_info.wellFormed T d.toValue = true) ∧
    get_system_av_info T { content := none } = none := by
  refine ⟨⟨_, rfl, le_upperBound _ _, le_upperBound _ _, ?_⟩, rfl⟩
  have hw := upperBound_lt (2 ^ T.uintBits) (T.toUnsigned c.typical.width)
    (c.others.map fun s => T.toUnsigned s.width) (toUnsigned_lt T _) (by
      intro x hx
      obtain ⟨s, _, rfl⟩ := List.mem_map.mp hx
      exact toUnsigned_lt T _)
  have hh := upperBound_lt (2 ^ T.uintBits) (T.toUnsigned c.typical.height)
    (c.others.map fun s => T.toUnsigned s.height) (toUnsigned_lt T _) (by
      intro x hx
      obtain ⟨s, _, rfl⟩ := List.mem_map.mp hx
      exact toUnsigned_lt T _)
  have hbw := toUnsigned_lt T c.typical.width
  have hbh := toUnsigned_lt T c.typical.height
  have ha : c.aspect_ratio % 2 ^ 32 < 2 ^ 32 := Nat.mod_lt _ (by norm_num)
  have hf : c.fps % 2 ^ 64 < 2 ^ 64 := Nat.mod_lt _ (by norm_num)
  have hs : c.sample_rate % 2 ^ 64 < 2 ^ 64 := Nat.mod_lt _ (by norm_num)
  simp only [StructDecl.wellFormed, retro_system_av_info, AVTimingDescriptor.toValue,
    membersOk, memberOk, fieldsOk, hasType, Bool.and_true, Bool.and_eq_true,
    decide_eq_true_eq]
  refine ⟨⟨⟨?_, ?_⟩, ⟨?_, ?_⟩, ⟨?_, ?_⟩, ⟨?_, ?_⟩, ha⟩, hf, hs⟩ <;>
    first
      | positivity
      | exact_mod_cast hbw
      | exact_mod_cast hbh
      | exact_mod_cast hw
      | exact_mod_cast hh

/-! ## The lifecycle state machine -/

/-- Every call names an entry point the header declares. -/
theorem Call.name_declared (c : Call) : (header.entryPoint c.name).isSome = true := by
  cases c <;> simp only [Call.name] <;> decide

/-- The lifecycle of section 8 at a concrete sequence: init, the six
registrations, a failed and then a successful load, the AV query, two runs, a
reset, unload and deinit; no call is rejected, and the wrapper ends
Deinitialized. -/
theorem Host.lifecycle_accepted :
    (Host.start.after
        [ .retro_init, .retro_set_environment, .retro_set_video_refresh,
          .retro_set_audio_sample, .retro_set_audio_sample_batch, .retro_set_input_poll,
          .retro_set_input_state ]).phase = .Configured ∧
    (Host.start.after
        [ .retro_init, .retro_set_environment, .retro_set_video_refresh,
          .retro_set_audio_sample, .retro_set_audio_sample_batch, .retro_set_input_poll,
          .retro_set_input_state, .retro_load_game false ]).accepts
      (.retro_load_game true) = true ∧
    (Host.start.after
        [ .retro_init, .retro_set_environment, .retro_set_video_refresh,
          .retro_set_audio_sample, .retro_set_audio_sample_batch, .retro_set_input_poll,
          .retro_set_input_state, .retro_load_game false, .retro_load_game true,
          .retro_get_system_av_info, .retro_run ]).accepts .retro_run = true ∧
    (Host.start.after
        [ .retro_init, .retro_set_environment, .retro_set_video_refresh,
          .retro_set_audio_sample, .retro_set_audio_sample_batch, .retro_set_input_poll,
          .retro_set_input_state, .retro_load_game false, .retro_load_game true,
          .retro_get_system_av_info, .retro_run, .retro_run, .retro_reset,
          .retro_unload_game, .retro_deinit ]).phase = .Deinitialized := by
  decide

theorem Host.after_append (h : Host) (xs ys : List Call) :
    h.after (xs ++ ys) = (h.after xs).after ys := by
  simp [Host.after, List.foldl_append]

theorem Host.after_cons (h : Host) (c : Call) (cs : List Call) :
    h.after (c :: cs) = (h.call c).after cs := rfl

theorem Host.register_phase (h h' : Host) (k : CallbackKind) (hk : h.register k = some h') :
    h'.phase = h.phase ∨ (h.phase = .Initialized ∧ h'.phase = .Configured) := by
  unfold Host.register at hk
  split_ifs at hk with hc
  all_goals
    obtain rfl := Option.some.inj hk
    dsimp only
    split_ifs with hp
    · exact Or.inr ⟨hp.1, rfl⟩
    · exact Or.inl rfl

theorem Host.register_loaded (h : Host) (k : CallbackKind) :
    ((h.register k).getD h).loaded = h.loaded := by
  cases hk : h.register k with
  | none => rfl
  | some h' =>
    rcases Host.register_phase h h' k hk with hp | ⟨h1, h2⟩
    · simp [Host.loaded, hp]
    · simp [Host.loaded, h1, h2]

/-- Run is let through exactly when a game is loaded. -/
theorem Host.accepts_run (h : Host) : h.accepts .retro_run = h.loaded := by
  simp only [Host.accepts, Host.step, Host.loaded]
  split_ifs with hp <;> simp [hp]

theorem Host.loaded_after_load (h : Host) (hacc : h.accepts (.retro_load_game true) = true) :
    (h.call (.retro_load_game true)).loaded = true := by
  simp only [Host.accepts, Host.step] at hacc
  simp only [Host.call, Host.step]
  split_ifs at hacc ⊢ with hp
  · simp [Host.loaded]
  · simp at hacc

theorem Host.loaded_call (h : Host) (c : Call) (hl : h.loaded = true)
    (hu : c ≠ .retro_unload_game) (hd : c ≠ .retro_deinit) : (h.call c).loaded = true := by
  have hp : h.phase = .GameLoaded ∨ h.phase = .Running := by simpa [Host.loaded] using hl
  cases c with
  | retro_unload_game => exact absurd rfl hu
  | retro_deinit => exact absurd rfl hd
  | retro_set_environment => simpa [Host.call, Host.step, Host.register_loaded] using hl
  | retro_set_video_refresh => simpa [Host.call, Host.step, Host.register_loaded] using hl
  | retro_set_audio_sample => simpa [Host.call, Host.step, Host.register_loaded] using hl
  | retro_set_audio_sample_batch => simpa [Host.call, Host.step, Host.register_loaded] using hl
  | retro_set_input_poll => simpa [Host.call, Host.step, Host.register_loaded] using hl
  | retro_set_input_state => simpa [Host.call, Host.step, Host.register_loaded] using hl
  | retro_load_game r => rcases hp with hp | hp <;> simp [Host.call, Host.step, Host.loaded, hp]
  | _ => rcases hp with hp | hp <;> simp [Host.call, Host.step, Host.loaded, hp]

theorem Host.register_not_paused (h : Host) (k : CallbackKind) (hp : h.phase ≠ .Paused) :
    ((h.register k).getD h).phase ≠ .Paused := by
  cases hk : h.register k with
  | none => exact hp
  | some h' =>
    rcases Host.register_phase h h' k hk with he | ⟨_, h2⟩
    · simpa [he] using hp
    · simp [h2]

/-- No call of an entry point leads to Paused. -/
theorem Host.call_not_paused (h : Host) (c : Call) (hp : h.phase ≠ .Paused) :
    (h.call c).phase ≠ .Paused := by
  cases c with
  | retro_set_environment => exact Host.register_not_paused h _ hp
  | retro_set_video_refresh => exact Host.register_not_paused h _ hp
  | retro_set_audio_sample => exact Host.register_not_paused h _ hp
  | retro_set_audio_sample_batch => exact Host.register_not_paused h _ hp
  | retro_set_input_poll => exact Host.register_not_paused h _ hp
  | retro_set_input_state => exact Host.register_not_paused h _ hp
  | retro_load_game r =>
    rcases h with ⟨phase, reg, b, ran⟩
    cases phase <;> cases r <;> simp_all [Host.call, Host.step]
  | _ =>
    rcases h with ⟨phase, reg, b, ran⟩
    cases phase <;> simp_all [Host.call, Host.step]

theorem Host.after_not_paused (h : Host) (calls : List Call) (hp : h.phase ≠ .Paused) :
    (h.after calls).phase ≠ .Paused := by
  induction calls generalizing h with
  | nil => exact hp
  | cons c cs ih => exact ih (h.call c) (Host.call_not_paused h c hp)

theorem Host.loaded_call_inv (h : Host) (c : Call) (hp : h.phase ≠ .Paused)
    (hl : (h.call c).loaded = true) :
    (h.loaded = true ∧ c ≠ .retro_unload_game ∧ c ≠ .retro_deinit) ∨
      (c = .retro_load_game true ∧ h.accepts c = true) := by
  cases c with
  | retro_set_environment =>
    rw [Host.call, Host.step, Host.register_loaded] at hl; exact Or.inl ⟨hl, by simp, by simp⟩
  | retro_set_video_refresh =>
    rw [Host.call, Host.step, Host.register_loaded] at hl; exact Or.inl ⟨hl, by simp, by simp⟩
  | retro_set_audio_sample =>
    rw [Host.call, Host.step, Host.register_loaded] at hl; exact Or.inl ⟨hl, by simp, by simp⟩
  | retro_set_audio_sample_batch =>
    rw [Host.call, Host.step, Host.register_loaded] at hl; exact Or.inl ⟨hl, by simp, by simp⟩
  | retro_set_input_poll =>
    rw [Host.call, Host.step, Host.register_loaded] at hl; exact Or.inl ⟨hl, by simp, by simp⟩
  | retro_set_input_state =>
    rw [Host.call, Host.step, Host.register_loaded] at hl; exact Or.inl ⟨hl, by simp, by simp⟩
  | retro_load_game r =>
    rcases h with ⟨phase, reg, b, ran⟩
    cases phase <;> cases r <;> simp_all [Host.call, Host.step, Host.loaded, Host.accepts]
  | _ =>
    rcases h with ⟨phase, reg, b, ran⟩
    cases phase <;> simp_all [Host.call, Host.step, Host.loaded, Host.accepts]

theorem Host.loaded_after (h : Host) (since : List Call) (hl : h.loaded = true)
    (hu : Call.retro_unload_game ∉ since) (hd : Call.retro_deinit ∉ since) :
    (h.after since).loaded = true := by
  induction since generalizing h with
  | nil => exact hl
  | cons c cs ih =>
    rw [Host.after_cons]
    refine ih (h.call c) (Host.loaded_call h c hl ?_ ?_) ?_ ?_
    · rintro rfl; exact hu (List.mem_cons_self _ _)
    · rintro rfl; exact hd (List.mem_cons_self _ _)
    · exact fun hm => hu (List.mem_cons_of_mem _ hm)
    · exact fun hm => hd (List.mem_cons_of_mem _ hm)

/-- A game is loaded after a call sequence exactly when the sequence holds a
successful load with no unload or deinit after it. -/
theorem Host.loaded_iff (calls : List Call) :
    (Host.start.after calls).loaded = true ↔
      ∃ before since, calls = before ++ Call.retro_load_game true :: since ∧
        (Host.start.after before).accepts (.retro_load_game true) = true ∧
        Call.retro_unload_game ∉ since ∧ Call.retro_deinit ∉ since := by
  constructor
  · induction calls using List.reverseRecOn with
    | nil => intro hl; simp [Host.after, Host.start, Host.loaded] at hl
    | append_singleton cs c ih =>
      intro hl
      rw [Host.after_append] at hl
      have hnp := Host.after_not_paused Host.start cs (by simp [Host.start])
      rcases Host.loaded_call_inv _ c hnp hl with ⟨hprev, hu, hd⟩ | ⟨rfl, hacc⟩
      · obtain ⟨before, since, rfl, hacc, hsu, hsd⟩ := ih hprev
        refine ⟨before, since ++ [c], by simp, hacc, ?_, ?_⟩
        · simp only [List.mem_append, List.mem_singleton, not_or]
          exact ⟨hsu, fun e => hu e.symm⟩
        · simp only [List.mem_append, List.mem_singleton, not_or]
          exact ⟨hsd, fun e => hd e.symm⟩
      · exact ⟨cs, [], rfl, hacc, by simp, by simp⟩
  · rintro ⟨before, since, rfl, hacc, hu, hd⟩
    rw [Host.after_append, Host.after_cons]
    exact Host.loaded_after _ since (Host.loaded_after_load _ hacc) hu hd

/-- C9: in every sequence of calls of the entry points, the wrapper rejects
retro_run before it reaches the core exactly when the run is not preceded by a
retro_load_game that was let through and returned true, with no
retro_unload_game and no retro_deinit since. -/
theorem run_rejected_without_successful_load (calls : List Call) :
    (Host.start.after calls).step .retro_run = none ↔
      ¬ ∃ before since, calls = before ++ Call.retro_load_game true :: since ∧
        (Host.start.after before).accepts (.retro_load_game true) = true ∧
        Call.retro_unload_game ∉ since ∧ Call.retro_deinit ∉ since := by
  rw [← Host.loaded_iff, ← Host.accepts_run, Host.accepts]
  cases (Host.start.after calls).step .retro_run <;> simp

end DSKit
